import Mathlib

/-!
Shallow embedding of `src/packages/apis/src/generated/PackagesAPI.ts`.

The module is a generated facade: eight methods, each mapping a typed request
object to an HTTP verb, a URL (with interpolated path parameters and a
whitelisted query string) and an optional content type, delegated to the
external `APIBase` transport.  The transport's pending result type is
abstracted as a type parameter `ρ`, and the transport itself as a record of
functions, so that every method is exactly one application of
`base.request`, as in the source.
-/

/-- Modelled from the spec: the `InfluxDB` connection handle (its class is
imported from `@influxdata/influxdb-client`, not under `src/`); this module
treats it as an opaque caller-supplied value. -/
structure InfluxDB where
  url : String

/-- Modelled from the spec: `RequestOptions` (declared in `APIBase.ts`, not
under `src/`) is "an opaque options value" that this module "passes through
unexamined". -/
structure RequestOptions where
  headers : List (String × String)

/-- Modelled from the spec: `PkgCreate` (declared in `./types`, not under
`src/`) is an opaque package spec carried as the body of `createPkg`. -/
structure PkgCreate where
  raw : String

/-- Modelled from the spec: `PkgApply` (declared in `./types`, not under
`src/`) is an opaque apply spec carried as the body of `applyPkg`. -/
structure PkgApply where
  raw : String

/-- Source interface `CreatePkgRequest`. -/
structure CreatePkgRequest where
  body : PkgCreate

/-- Source interface `ApplyPkgRequest`. -/
structure ApplyPkgRequest where
  body : PkgApply

/-- Source interface `ListStacksRequest`: `orgID` required, `name` and
`stackID` optional. -/
structure ListStacksRequest where
  orgID : String
  name : Option String
  stackID : Option String

/-- Inline body shape of `CreateStackRequest` in the source. -/
structure CreateStackBody where
  orgID : Option String
  name : Option String
  description : Option String
  urls : Option (List String)

/-- Source interface `CreateStackRequest`. -/
structure CreateStackRequest where
  body : CreateStackBody

/-- Source interface `ReadStackRequest`. -/
structure ReadStackRequest where
  stack_id : String

/-- Inline body shape of `UpdateStackRequest` in the source. -/
structure UpdateStackBody where
  name : Option String
  description : Option String
  urls : Option (List String)

/-- Source interface `UpdateStackRequest`. -/
structure UpdateStackRequest where
  stack_id : String
  body : UpdateStackBody

/-- Source interface `DeleteStackRequest`. -/
structure DeleteStackRequest where
  stack_id : String
  orgID : String

/-- Source interface `ExportStackRequest`. -/
structure ExportStackRequest where
  stack_id : String
  orgID : String

/-- Runtime image of `ReadStackRequest` when the required `stack_id` field is
absent at run time (TypeScript types are erased, so a caller can pass an
object whose `stack_id` is `undefined`; the interface declares it required). -/
structure ReadStackRequestRaw where
  stack_id : Option String

/-- Runtime image of `UpdateStackRequest` with `stack_id` possibly absent. -/
structure UpdateStackRequestRaw where
  stack_id : Option String
  body : UpdateStackBody

/-- Runtime image of `DeleteStackRequest` with `stack_id` possibly absent. -/
structure DeleteStackRequestRaw where
  stack_id : Option String
  orgID : String

/-- Runtime image of `ExportStackRequest` with `stack_id` possibly absent. -/
structure ExportStackRequestRaw where
  stack_id : Option String
  orgID : String

/-- The request object handed to the transport (typed `any` on the TypeScript
side): one constructor per request shape this module ever passes through. -/
inductive RequestValue where
  | createPkg (r : CreatePkgRequest)
  | applyPkg (r : ApplyPkgRequest)
  | listStacks (r : ListStacksRequest)
  | createStack (r : CreateStackRequest)
  | readStack (r : ReadStackRequest)
  | updateStack (r : UpdateStackRequest)
  | deleteStack (r : DeleteStackRequest)
  | exportStack (r : ExportStackRequest)
  | readStackRaw (r : ReadStackRequestRaw)
  | updateStackRaw (r : UpdateStackRequestRaw)
  | deleteStackRaw (r : DeleteStackRequestRaw)
  | exportStackRaw (r : ExportStackRequestRaw)

/-- JavaScript dynamic property access `request[key]` on a `ListStacksRequest`,
restricted to string-valued fields: an absent optional field reads as
`undefined` (`none`). -/
def ListStacksRequest.getField (r : ListStacksRequest) : String → Option String
  | "orgID" => some r.orgID
  | "name" => r.name
  | "stackID" => r.stackID
  | _ => none

/-- JavaScript dynamic property access on a `DeleteStackRequest`. -/
def DeleteStackRequest.getField (r : DeleteStackRequest) : String → Option String
  | "stack_id" => some r.stack_id
  | "orgID" => some r.orgID
  | _ => none

/-- JavaScript dynamic property access on an `ExportStackRequest`. -/
def ExportStackRequest.getField (r : ExportStackRequest) : String → Option String
  | "stack_id" => some r.stack_id
  | "orgID" => some r.orgID
  | _ => none

/-- JavaScript dynamic property access on a `DeleteStackRequestRaw`. -/
def DeleteStackRequestRaw.getField (r : DeleteStackRequestRaw) : String → Option String
  | "stack_id" => r.stack_id
  | "orgID" => some r.orgID
  | _ => none

/-- JavaScript dynamic property access on an `ExportStackRequestRaw`. -/
def ExportStackRequestRaw.getField (r : ExportStackRequestRaw) : String → Option String
  | "stack_id" => r.stack_id
  | "orgID" => some r.orgID
  | _ => none

/-- Join query-string pairs with `&`. -/
def joinAmp : List String → String
  | [] => ""
  | [p] => p
  | p :: ps => p ++ "&" ++ joinAmp ps

/-- Modelled from the spec: `APIBase.queryString(request, fieldNames)` is
implemented in `APIBase.ts`, which is not under `src/`.  Per the spec,
query-string construction is declarative: "each method names the subset of
its request fields that should become query parameters; the shared transport
filters and encodes only those named fields, ignoring all others", keeping
the declared field order, producing `key=value` pairs joined by `&` behind a
leading `?` (spec examples: `?orgID=`, `orgID=o1`, all three fields "in the
declared field order"), and producing nothing for absent optional fields.
The dynamic field lookup is abstracted as a function from field name to
optional string value. -/
def queryString (fields : String → Option String) (params : List String) : String :=
  match params.filterMap (fun k => (fields k).map (fun v => k ++ "=" ++ v)) with
  | [] => ""
  | p :: ps => "?" ++ joinAmp (p :: ps)

/-- Modelled from the spec: `APIBase` (not under `src/`) is the external
transport collaborator "exposing `request(verb, path, requestObject, options,
contentType?) -> pendingResult<T>`" and holding the connection context of the
caller-supplied `InfluxDB` handle.  The pending result type is abstracted as
`ρ`; an optional content type of `none` embeds an omitted last argument. -/
structure APIBase (ρ : Type) where
  influxDB : InfluxDB
  request : String → String → RequestValue → Option RequestOptions → Option String → ρ

/-- Source method `PackagesAPI.createPkg`: `POST /api/v2/packages`, full
request as body, content type `application/json`. -/
def PackagesAPI.createPkg {ρ : Type} (base : APIBase ρ) (request : CreatePkgRequest)
    (requestOptions : Option RequestOptions) : ρ :=
  base.request "POST" "/api/v2/packages" (RequestValue.createPkg request) requestOptions
    (some "application/json")

/-- Source method `PackagesAPI.applyPkg`: `POST /api/v2/packages/apply`. -/
def PackagesAPI.applyPkg {ρ : Type} (base : APIBase ρ) (request : ApplyPkgRequest)
    (requestOptions : Option RequestOptions) : ρ :=
  base.request "POST" "/api/v2/packages/apply" (RequestValue.applyPkg request) requestOptions
    (some "application/json")

/-- Source method `PackagesAPI.listStacks`: `GET /api/v2/packages/stacks` with
the query string built from the whitelisted fields `orgID`, `name`, `stackID`. -/
def PackagesAPI.listStacks {ρ : Type} (base : APIBase ρ) (request : ListStacksRequest)
    (requestOptions : Option RequestOptions) : ρ :=
  base.request "GET"
    ("/api/v2/packages/stacks" ++ queryString request.getField ["orgID", "name", "stackID"])
    (RequestValue.listStacks request) requestOptions none

/-- Source method `PackagesAPI.createStack`: `POST /api/v2/packages/stacks`. -/
def PackagesAPI.createStack {ρ : Type} (base : APIBase ρ) (request : CreateStackRequest)
    (requestOptions : Option RequestOptions) : ρ :=
  base.request "POST" "/api/v2/packages/stacks" (RequestValue.createStack request) requestOptions
    (some "application/json")

/-- Source method `PackagesAPI.readStack`: `GET /api/v2/packages/stacks/{stack_id}`. -/
def PackagesAPI.readStack {ρ : Type} (base : APIBase ρ) (request : ReadStackRequest)
    (requestOptions : Option RequestOptions) : ρ :=
  base.request "GET" ("/api/v2/packages/stacks/" ++ request.stack_id)
    (RequestValue.readStack request) requestOptions none

/-- Source method `PackagesAPI.updateStack`: `PATCH /api/v2/packages/stacks/{stack_id}`. -/
def PackagesAPI.updateStack {ρ : Type} (base : APIBase ρ) (request : UpdateStackRequest)
    (requestOptions : Option RequestOptions) : ρ :=
  base.request "PATCH" ("/api/v2/packages/stacks/" ++ request.stack_id)
    (RequestValue.updateStack request) requestOptions (some "application/json")

/-- Source method `PackagesAPI.deleteStack`: `DELETE /api/v2/packages/stacks/{stack_id}`
with query built from the whitelisted field `orgID`. -/
def PackagesAPI.deleteStack {ρ : Type} (base : APIBase ρ) (request : DeleteStackRequest)
    (requestOptions : Option RequestOptions) : ρ :=
  base.request "DELETE"
    ("/api/v2/packages/stacks/" ++ request.stack_id ++ queryString request.getField ["orgID"])
    (RequestValue.deleteStack request) requestOptions none

/-- Source method `PackagesAPI.exportStack`: the source uses verb `DELETE` on
`/api/v2/packages/stacks/{stack_id}/export` with query built from `orgID`. -/
def PackagesAPI.exportStack {ρ : Type} (base : APIBase ρ) (request : ExportStackRequest)
    (requestOptions : Option RequestOptions) : ρ :=
  base.request "DELETE"
    ("/api/v2/packages/stacks/" ++ request.stack_id ++ "/export"
      ++ queryString request.getField ["orgID"])
    (RequestValue.exportStack request) requestOptions none

/-- JavaScript template-literal semantics for a possibly-absent string field:
interpolating `undefined` yields the text `undefined`. -/
def jsInterp : Option String → String
  | some s => s
  | none => "undefined"

/-- Body of `PackagesAPI.readStack` evaluated under JavaScript runtime
semantics when `stack_id` may be absent: the value is interpolated anyway. -/
def PackagesAPI.readStackRaw {ρ : Type} (base : APIBase ρ) (request : ReadStackRequestRaw)
    (requestOptions : Option RequestOptions) : ρ :=
  base.request "GET" ("/api/v2/packages/stacks/" ++ jsInterp request.stack_id)
    (RequestValue.readStackRaw request) requestOptions none

/-- Body of `PackagesAPI.updateStack` under JavaScript runtime semantics with
`stack_id` possibly absent. -/
def PackagesAPI.updateStackRaw {ρ : Type} (base : APIBase ρ) (request : UpdateStackRequestRaw)
    (requestOptions : Option RequestOptions) : ρ :=
  base.request "PATCH" ("/api/v2/packages/stacks/" ++ jsInterp request.stack_id)
    (RequestValue.updateStackRaw request) requestOptions (some "application/json")

/-- Body of `PackagesAPI.deleteStack` under JavaScript runtime semantics with
`stack_id` possibly absent. -/
def PackagesAPI.deleteStackRaw {ρ : Type} (base : APIBase ρ) (request : DeleteStackRequestRaw)
    (requestOptions : Option RequestOptions) : ρ :=
  base.request "DELETE"
    ("/api/v2/packages/stacks/" ++ jsInterp request.stack_id
      ++ queryString request.getField ["orgID"])
    (RequestValue.deleteStackRaw request) requestOptions none

/-- Body of `PackagesAPI.exportStack` under JavaScript runtime semantics with
`stack_id` possibly absent. -/
def PackagesAPI.exportStackRaw {ρ : Type} (base : APIBase ρ) (request : ExportStackRequestRaw)
    (requestOptions : Option RequestOptions) : ρ :=
  base.request "DELETE"
    ("/api/v2/packages/stacks/" ++ jsInterp request.stack_id ++ "/export"
      ++ queryString request.getField ["orgID"])
    (RequestValue.exportStackRaw request) requestOptions none

/-- One outbound transport call: the five arguments handed to `base.request`. -/
structure Call where
  verb : String
  path : String
  request : RequestValue
  options : Option RequestOptions
  contentType : Option String

/-- Modelled from the spec: "Content type for bodies: `application/json` where
a body is sent"; the transport (not under `src/`) sends a request body exactly
when a content type argument is passed. -/
def Call.sendsBody (c : Call) : Bool :=
  c.contentType.isSome

/-- Uniform dispatcher over the request shapes: invokes the one source method
corresponding to the request value.  Used to state properties of all methods
at once. -/
def PackagesAPI.dispatch {ρ : Type} (base : APIBase ρ) (r : RequestValue)
    (o : Option RequestOptions) : ρ :=
  match r with
  | .createPkg q => PackagesAPI.createPkg base q o
  | .applyPkg q => PackagesAPI.applyPkg base q o
  | .listStacks q => PackagesAPI.listStacks base q o
  | .createStack q => PackagesAPI.createStack base q o
  | .readStack q => PackagesAPI.readStack base q o
  | .updateStack q => PackagesAPI.updateStack base q o
  | .deleteStack q => PackagesAPI.deleteStack base q o
  | .exportStack q => PackagesAPI.exportStack base q o
  | .readStackRaw q => PackagesAPI.readStackRaw base q o
  | .updateStackRaw q => PackagesAPI.updateStackRaw base q o
  | .deleteStackRaw q => PackagesAPI.deleteStackRaw base q o
  | .exportStackRaw q => PackagesAPI.exportStackRaw base q o

/-- The transport call each method makes, collected from the method bodies. -/
def callOf (r : RequestValue) (o : Option RequestOptions) : Call :=
  match r with
  | .createPkg q => ⟨"POST", "/api/v2/packages", .createPkg q, o, some "application/json"⟩
  | .applyPkg q => ⟨"POST", "/api/v2/packages/apply", .applyPkg q, o, some "application/json"⟩
  | .listStacks q =>
    ⟨"GET", "/api/v2/packages/stacks" ++ queryString q.getField ["orgID", "name", "stackID"],
      .listStacks q, o, none⟩
  | .createStack q => ⟨"POST", "/api/v2/packages/stacks", .createStack q, o,
      some "application/json"⟩
  | .readStack q => ⟨"GET", "/api/v2/packages/stacks/" ++ q.stack_id, .readStack q, o, none⟩
  | .updateStack q => ⟨"PATCH", "/api/v2/packages/stacks/" ++ q.stack_id, .updateStack q, o,
      some "application/json"⟩
  | .deleteStack q =>
    ⟨"DELETE", "/api/v2/packages/stacks/" ++ q.stack_id ++ queryString q.getField ["orgID"],
      .deleteStack q, o, none⟩
  | .exportStack q =>
    ⟨"DELETE",
      "/api/v2/packages/stacks/" ++ q.stack_id ++ "/export" ++ queryString q.getField ["orgID"],
      .exportStack q, o, none⟩
  | .readStackRaw q =>
    ⟨"GET", "/api/v2/packages/stacks/" ++ jsInterp q.stack_id, .readStackRaw q, o, none⟩
  | .updateStackRaw q =>
    ⟨"PATCH", "/api/v2/packages/stacks/" ++ jsInterp q.stack_id, .updateStackRaw q, o,
      some "application/json"⟩
  | .deleteStackRaw q =>
    ⟨"DELETE",
      "/api/v2/packages/stacks/" ++ jsInterp q.stack_id ++ queryString q.getField ["orgID"],
      .deleteStackRaw q, o, none⟩
  | .exportStackRaw q =>
    ⟨"DELETE",
      "/api/v2/packages/stacks/" ++ jsInterp q.stack_id ++ "/export"
        ++ queryString q.getField ["orgID"],
      .exportStackRaw q, o, none⟩

/-- A transport that records the arguments of each call it receives: its
pending-result type is the list of calls made. -/
def traceBase : APIBase (List Call) :=
  ⟨⟨"http://localhost:8086"⟩, fun v p r o c => [⟨v, p, r, o, c⟩]⟩

/-- The `PackagesAPI` object state: its single private field `base`. -/
structure PackagesAPIObj (ρ : Type) where
  base : APIBase ρ

/-- Source constructor `constructor(influxDB) { this.base = new APIBase(influxDB) }`:
the external `new APIBase(...)` (not under `src/`) is abstracted as the
factory argument `newAPIBase`. -/
def PackagesAPI.construct {ρ : Type} (newAPIBase : InfluxDB → APIBase ρ)
    (influxDB : InfluxDB) : PackagesAPIObj ρ :=
  ⟨newAPIBase influxDB⟩

/-- State-passing form of the methods: a method body contains no assignment to
`this`, so the object state is returned unchanged alongside the result. -/
def PackagesAPI.dispatchS {ρ : Type} (api : PackagesAPIObj ρ) (r : RequestValue)
    (o : Option RequestOptions) : ρ × PackagesAPIObj ρ :=
  (PackagesAPI.dispatch api.base r o, api)

/-! Helper lemmas. -/

/-- Merging a literal prefix across string append associativity. -/
theorem append_lit_merge (a b c : String) (h : a ++ b = c) :
    ∀ x : String, a ++ (b ++ x) = c ++ x := by
  intro x
  rw [← String.append_assoc, h]

/-- Closed form of the `deleteStack` query string. -/
theorem qs_delete_orgID (r : DeleteStackRequest) :
    queryString r.getField ["orgID"] = "?orgID=" ++ r.orgID := by
  show "?" ++ ("orgID=" ++ r.orgID) = "?orgID=" ++ r.orgID
  exact append_lit_merge "?" "orgID=" "?orgID=" rfl r.orgID

/-- Closed form of the `exportStack` query string. -/
theorem qs_export_orgID (r : ExportStackRequest) :
    queryString r.getField ["orgID"] = "?orgID=" ++ r.orgID := by
  show "?" ++ ("orgID=" ++ r.orgID) = "?orgID=" ++ r.orgID
  exact append_lit_merge "?" "orgID=" "?orgID=" rfl r.orgID

/-- Closed form of the `deleteStack` query string at a runtime request. -/
theorem qs_deleteRaw_orgID (r : DeleteStackRequestRaw) :
    queryString r.getField ["orgID"] = "?orgID=" ++ r.orgID := by
  show "?" ++ ("orgID=" ++ r.orgID) = "?orgID=" ++ r.orgID
  exact append_lit_merge "?" "orgID=" "?orgID=" rfl r.orgID

/-- Closed form of the `exportStack` query string at a runtime request. -/
theorem qs_exportRaw_orgID (r : ExportStackRequestRaw) :
    queryString r.getField ["orgID"] = "?orgID=" ++ r.orgID := by
  show "?" ++ ("orgID=" ++ r.orgID) = "?orgID=" ++ r.orgID
  exact append_lit_merge "?" "orgID=" "?orgID=" rfl r.orgID

/-- Closed form of the `listStacks` query string when only `orgID` is present. -/
theorem qs_listStacks_orgID_only (o : String) :
    queryString (ListStacksRequest.mk o none none).getField ["orgID", "name", "stackID"] =
      "?orgID=" ++ o := by
  show "?" ++ ("orgID=" ++ o) = "?orgID=" ++ o
  exact append_lit_merge "?" "orgID=" "?orgID=" rfl o

/-- Closed form of the `listStacks` query string when all three whitelisted
fields are present: declared field order. -/
theorem qs_listStacks_all (o n s : String) :
    queryString (ListStacksRequest.mk o (some n) (some s)).getField
        ["orgID", "name", "stackID"] =
      "?orgID=" ++ o ++ "&name=" ++ n ++ "&stackID=" ++ s := by
  show "?" ++ (("orgID=" ++ o) ++ "&" ++ (("name=" ++ n) ++ "&" ++ ("stackID=" ++ s))) =
    "?orgID=" ++ o ++ "&name=" ++ n ++ "&stackID=" ++ s
  simp only [String.append_assoc, append_lit_merge "?" "orgID=" "?orgID=" rfl,
    append_lit_merge "&" "name=" "&name=" rfl,
    append_lit_merge "&" "stackID=" "&stackID=" rfl]

/-- Every method is one application of `base.request` at the arguments
recorded by `callOf`. -/
theorem dispatch_eq_transport {ρ : Type} (base : APIBase ρ) (r : RequestValue)
    (o : Option RequestOptions) :
    PackagesAPI.dispatch base r o =
      base.request (callOf r o).verb (callOf r o).path (callOf r o).request
        (callOf r o).options (callOf r o).contentType := by
  cases r <;> rfl

/-! Claim theorems. -/

/-- C1: the `exportStack` operation sends its request with HTTP verb `DELETE`
(not `GET`) to the path `/api/v2/packages/stacks/{stack_id}/export`, with the
`orgID` field of the request encoded as a query parameter, for every
`ExportStackRequest`. -/
theorem exportStack_sends_delete_with_orgID_query :
    (∀ (ρ : Type) (base : APIBase ρ) (r : ExportStackRequest) (o : Option RequestOptions),
      PackagesAPI.exportStack base r o =
        base.request "DELETE"
          ("/api/v2/packages/stacks/" ++ r.stack_id ++ "/export" ++ ("?orgID=" ++ r.orgID))
          (RequestValue.exportStack r) o none) ∧
    ("DELETE" : String) ≠ "GET" := by
  refine ⟨fun ρ base r o => ?_, by decide⟩
  unfold PackagesAPI.exportStack
  rw [qs_export_orgID]

/-- C2: for each of the eight methods and every request object with its
required fields populated, the HTTP verb and URL handed to the transport
match the contract table of spec §4.1 (for `exportStack` the table records
the verb as implemented, `DELETE`). -/
theorem verbs_and_paths_match_contract_table :
    (∀ (ρ : Type) (base : APIBase ρ) (r : CreatePkgRequest) (o : Option RequestOptions),
      PackagesAPI.createPkg base r o =
        base.request "POST" "/api/v2/packages" (RequestValue.createPkg r) o
          (some "application/json")) ∧
    (∀ (ρ : Type) (base : APIBase ρ) (r : ApplyPkgRequest) (o : Option RequestOptions),
      PackagesAPI.applyPkg base r o =
        base.request "POST" "/api/v2/packages/apply" (RequestValue.applyPkg r) o
          (some "application/json")) ∧
    (∀ (ρ : Type) (base : APIBase ρ) (r : ListStacksRequest) (o : Option RequestOptions),
      PackagesAPI.listStacks base r o =
        base.request "GET"
          ("/api/v2/packages/stacks"
            ++ queryString r.getField ["orgID", "name", "stackID"])
          (RequestValue.listStacks r) o none) ∧
    (∀ (ρ : Type) (base : APIBase ρ) (r : CreateStackRequest) (o : Option RequestOptions),
      PackagesAPI.createStack base r o =
        base.request "POST" "/api/v2/packages/stacks" (RequestValue.createStack r) o
          (some "application/json")) ∧
    (∀ (ρ : Type) (base : APIBase ρ) (r : ReadStackRequest) (o : Option RequestOptions),
      PackagesAPI.readStack base r o =
        base.request "GET" ("/api/v2/packages/stacks/" ++ r.stack_id)
          (RequestValue.readStack r) o none) ∧
    (∀ (ρ : Type) (base : APIBase ρ) (r : UpdateStackRequest) (o : Option RequestOptions),
      PackagesAPI.updateStack base r o =
        base.request "PATCH" ("/api/v2/packages/stacks/" ++ r.stack_id)
          (RequestValue.updateStack r) o (some "application/json")) ∧
    (∀ (ρ : Type) (base : APIBase ρ) (r : DeleteStackRequest) (o : Option RequestOptions),
      PackagesAPI.deleteStack base r o =
        base.request "DELETE"
          ("/api/v2/packages/stacks/" ++ r.stack_id ++ ("?orgID=" ++ r.orgID))
          (RequestValue.deleteStack r) o none) ∧
    (∀ (ρ : Type) (base : APIBase ρ) (r : ExportStackRequest) (o : Option RequestOptions),
      PackagesAPI.exportStack base r o =
        base.request "DELETE"
          ("/api/v2/packages/stacks/" ++ r.stack_id ++ "/export"
            ++ ("?orgID=" ++ r.orgID))
          (RequestValue.exportStack r) o none) := by
  refine ⟨fun ρ base r o => rfl, fun ρ base r o => rfl, fun ρ base r o => rfl,
    fun ρ base r o => rfl, fun ρ base r o => rfl, fun ρ base r o => rfl,
    fun ρ base r o => ?_, fun ρ base r o => ?_⟩
  · unfold PackagesAPI.deleteStack
    rw [qs_delete_orgID]
  · unfold PackagesAPI.exportStack
    rw [qs_export_orgID]

/-- C3: every method returns exactly the pending result of its single
transport call: with the transport's pending results modelled as `Except`,
the method's result is `ok v` exactly when the transport call is `ok v`, and
`error e` exactly when the transport call is `error e` — no transformation,
wrapping, retry or recovery. -/
theorem methods_forward_transport_result_unchanged :
    ∀ (ε α : Type) (base : APIBase (Except ε α)) (r : RequestValue)
      (o : Option RequestOptions),
      (∀ v : α,
        PackagesAPI.dispatch base r o = Except.ok v ↔
          base.request (callOf r o).verb (callOf r o).path (callOf r o).request
            (callOf r o).options (callOf r o).contentType = Except.ok v) ∧
      (∀ e : ε,
        PackagesAPI.dispatch base r o = Except.error e ↔
          base.request (callOf r o).verb (callOf r o).path (callOf r o).request
            (callOf r o).options (callOf r o).contentType = Except.error e) := by
  intro ε α base r o
  rw [dispatch_eq_transport]
  exact ⟨fun v => Iff.rfl, fun e => Iff.rfl⟩

/-- C4: `listStacks` whitelists exactly the fields `orgID`, `name`, `stackID`
in declared order: with only `orgID` present the query string is `?orgID=o`;
with all three present it lists all three in declared field order; and the
query string depends only on the whitelisted fields, so no other field of the
request object ever enters it. -/
theorem listStacks_query_whitelist_order :
    (∀ (ρ : Type) (base : APIBase ρ) (r : ListStacksRequest) (o : Option RequestOptions),
      PackagesAPI.listStacks base r o =
        base.request "GET"
          ("/api/v2/packages/stacks"
            ++ queryString r.getField ["orgID", "name", "stackID"])
          (RequestValue.listStacks r) o none) ∧
    (∀ o : String,
      queryString (ListStacksRequest.mk o none none).getField
          ["orgID", "name", "stackID"] = "?orgID=" ++ o) ∧
    (∀ o n s : String,
      queryString (ListStacksRequest.mk o (some n) (some s)).getField
          ["orgID", "name", "stackID"] =
        "?orgID=" ++ o ++ "&name=" ++ n ++ "&stackID=" ++ s) ∧
    (∀ (f g : String → Option String) (ks : List String),
      (∀ k ∈ ks, f k = g k) → queryString f ks = queryString g ks) := by
  refine ⟨fun ρ base r o => rfl, qs_listStacks_orgID_only, qs_listStacks_all, ?_⟩
  intro f g ks h
  have hfg : ks.filterMap (fun k => (f k).map (fun v => k ++ "=" ++ v)) =
      ks.filterMap (fun k => (g k).map (fun v => k ++ "=" ++ v)) :=
    List.filterMap_congr (fun k hk => by rw [h k hk])
  unfold queryString
  rw [hfg]

/-- Witness for C4: the hypothesis of the last conjunct discharged at a
concrete pair of field maps that agree on the whitelist `[orgID]` but differ
elsewhere. -/
theorem listStacks_query_whitelist_order_witness :
    queryString (fun k => if k = "orgID" then some "o1" else none) ["orgID"] =
      queryString (fun k => if k = "orgID" then some "o1" else some "junk") ["orgID"] :=
  listStacks_query_whitelist_order.2.2.2 _ _ ["orgID"] (by
    intro k hk
    rw [List.mem_singleton] at hk
    subst hk
    rfl)

/-- C5: `deleteStack` at `stack_id = "abc"`, `orgID = "o1"` targets the URL
`/api/v2/packages/stacks/abc?orgID=o1` and sends no request body (no content
type is passed, and per the spec the transport sends a body exactly when a
content type is passed). -/
theorem deleteStack_concrete_abc_o1 :
    (∀ (ρ : Type) (base : APIBase ρ) (o : Option RequestOptions),
      PackagesAPI.deleteStack base ⟨"abc", "o1"⟩ o =
        base.request "DELETE" "/api/v2/packages/stacks/abc?orgID=o1"
          (RequestValue.deleteStack ⟨"abc", "o1"⟩) o none) ∧
    (∀ o : Option RequestOptions,
      (callOf (RequestValue.deleteStack ⟨"abc", "o1"⟩) o).sendsBody = false) := by
  refine ⟨fun ρ base o => ?_, fun o => rfl⟩
  unfold PackagesAPI.deleteStack
  rw [qs_delete_orgID]
  rfl

/-- C6: exactly the four body-carrying operations `createPkg`, `applyPkg`,
`createStack`, `updateStack` pass content type `application/json` to the
transport, and `listStacks`, `readStack`, `deleteStack`, `exportStack` pass
no content type argument. -/
theorem content_types_exactly_body_ops :
    (∀ (ρ : Type) (base : APIBase ρ) (r : RequestValue) (o : Option RequestOptions),
      PackagesAPI.dispatch base r o =
        base.request (callOf r o).verb (callOf r o).path (callOf r o).request
          (callOf r o).options (callOf r o).contentType) ∧
    (∀ (r : CreatePkgRequest) (o : Option RequestOptions),
      (callOf (RequestValue.createPkg r) o).contentType = some "application/json") ∧
    (∀ (r : ApplyPkgRequest) (o : Option RequestOptions),
      (callOf (RequestValue.applyPkg r) o).contentType = some "application/json") ∧
    (∀ (r : CreateStackRequest) (o : Option RequestOptions),
      (callOf (RequestValue.createStack r) o).contentType = some "application/json") ∧
    (∀ (r : UpdateStackRequest) (o : Option RequestOptions),
      (callOf (RequestValue.updateStack r) o).contentType = some "application/json") ∧
    (∀ (r : ListStacksRequest) (o : Option RequestOptions),
      (callOf (RequestValue.listStacks r) o).contentType = none) ∧
    (∀ (r : ReadStackRequest) (o : Option RequestOptions),
      (callOf (RequestValue.readStack r) o).contentType = none) ∧
    (∀ (r : DeleteStackRequest) (o : Option RequestOptions),
      (callOf (RequestValue.deleteStack r) o).contentType = none) ∧
    (∀ (r : ExportStackRequest) (o : Option RequestOptions),
      (callOf (RequestValue.exportStack r) o).contentType = none) :=
  ⟨fun _ base r o => dispatch_eq_transport base r o, fun _ _ => rfl, fun _ _ => rfl,
    fun _ _ => rfl, fun _ _ => rfl, fun _ _ => rfl, fun _ _ => rfl, fun _ _ => rfl,
    fun _ _ => rfl⟩

/-- C7: a `PackagesAPI` instance holds a single `base` reference, created once
in the constructor from the caller-supplied connection handle, and that
reference is shared read-only across all calls: no method replaces or mutates
it (the state-passing form of every method returns the object state
unchanged, and the result is computed from the stored `base` alone). -/
theorem base_reference_shared_unmutated :
    (∀ (ρ : Type) (newAPIBase : InfluxDB → APIBase ρ) (influxDB : InfluxDB),
      (PackagesAPI.construct newAPIBase influxDB).base = newAPIBase influxDB) ∧
    (∀ (ρ : Type) (api : PackagesAPIObj ρ) (r : RequestValue) (o : Option RequestOptions),
      (PackagesAPI.dispatchS api r o).2 = api ∧
      (PackagesAPI.dispatchS api r o).2.base = api.base ∧
      (PackagesAPI.dispatchS api r o).1 = PackagesAPI.dispatch api.base r o) :=
  ⟨fun _ _ _ => rfl, fun _ _ _ _ => ⟨rfl, rfl, rfl⟩⟩

/-- C8: no client-side validation of the `stack_id` path parameter: calling a
method with the parameter absent at run time does not fail locally — the
absent value interpolates as the text `undefined`, and the resulting
malformed URL is still handed to the transport in a single call. -/
theorem absent_stack_id_total_passthrough :
    (∀ (ρ : Type) (base : APIBase ρ) (o : Option RequestOptions),
      PackagesAPI.readStackRaw base ⟨none⟩ o =
        base.request "GET" "/api/v2/packages/stacks/undefined"
          (RequestValue.readStackRaw ⟨none⟩) o none) ∧
    (∀ (ρ : Type) (base : APIBase ρ) (b : UpdateStackBody) (o : Option RequestOptions),
      PackagesAPI.updateStackRaw base ⟨none, b⟩ o =
        base.request "PATCH" "/api/v2/packages/stacks/undefined"
          (RequestValue.updateStackRaw ⟨none, b⟩) o (some "application/json")) ∧
    (∀ (ρ : Type) (base : APIBase ρ) (g : String) (o : Option RequestOptions),
      PackagesAPI.deleteStackRaw base ⟨none, g⟩ o =
        base.request "DELETE" ("/api/v2/packages/stacks/undefined" ++ ("?orgID=" ++ g))
          (RequestValue.deleteStackRaw ⟨none, g⟩) o none) ∧
    (∀ (ρ : Type) (base : APIBase ρ) (g : String) (o : Option RequestOptions),
      PackagesAPI.exportStackRaw base ⟨none, g⟩ o =
        base.request "DELETE"
          ("/api/v2/packages/stacks/undefined/export" ++ ("?orgID=" ++ g))
          (RequestValue.exportStackRaw ⟨none, g⟩) o none) := by
  refine ⟨fun ρ base o => rfl, fun ρ base b o => rfl, fun ρ base g o => ?_,
    fun ρ base g o => ?_⟩
  · unfold PackagesAPI.deleteStackRaw
    rw [qs_deleteRaw_orgID]
    rfl
  · unfold PackagesAPI.exportStackRaw
    rw [qs_exportRaw_orgID]
    rfl

/-- C9: one invocation of any method produces exactly one call to the
transport's request function (a recording transport sees a one-element
trace), and the request object reaches the transport intact: the call's
request is the very request passed in, unmutated. -/
theorem one_transport_call_request_kept_intact :
    ∀ (r : RequestValue) (o : Option RequestOptions),
      PackagesAPI.dispatch traceBase r o = [callOf r o] ∧
      (callOf r o).request = r ∧ (callOf r o).options = o := by
  intro r o
  cases r <;> exact ⟨rfl, rfl, rfl⟩

/-- C10: the `stack_id` of `readStack`, `updateStack`, `deleteStack` and
`exportStack` is interpolated into the URL verbatim — plain string append, no
URL-encoding — so a `stack_id` containing `/` adds a path separator to the
URL handed to the transport and one containing `?` introduces a query
delimiter. -/
theorem stack_id_interpolated_verbatim :
    (∀ (ρ : Type) (base : APIBase ρ) (r : ReadStackRequest) (o : Option RequestOptions),
      PackagesAPI.readStack base r o =
        base.request "GET" ("/api/v2/packages/stacks/" ++ r.stack_id)
          (RequestValue.readStack r) o none) ∧
    (∀ (ρ : Type) (base : APIBase ρ) (r : UpdateStackRequest) (o : Option RequestOptions),
      PackagesAPI.updateStack base r o =
        base.request "PATCH" ("/api/v2/packages/stacks/" ++ r.stack_id)
          (RequestValue.updateStack r) o (some "application/json")) ∧
    (∀ (ρ : Type) (base : APIBase ρ) (r : DeleteStackRequest) (o : Option RequestOptions),
      PackagesAPI.deleteStack base r o =
        base.request "DELETE"
          ("/api/v2/packages/stacks/" ++ r.stack_id ++ ("?orgID=" ++ r.orgID))
          (RequestValue.deleteStack r) o none) ∧
    (∀ (ρ : Type) (base : APIBase ρ) (r : ExportStackRequest) (o : Option RequestOptions),
      PackagesAPI.exportStack base r o =
        base.request "DELETE"
          ("/api/v2/packages/stacks/" ++ r.stack_id ++ "/export"
            ++ ("?orgID=" ++ r.orgID))
          (RequestValue.exportStack r) o none) ∧
    (("/api/v2/packages/stacks/" ++ "a/b").data.count '/' =
      ("/api/v2/packages/stacks/" ++ "ab").data.count '/' + 1) ∧
    ('?' ∈ ("/api/v2/packages/stacks/" ++ "a?orgID=x").data ∧
      '?' ∉ ("/api/v2/packages/stacks/" ++ "aorgID=x").data) := by
  refine ⟨fun ρ base r o => rfl, fun ρ base r o => rfl, fun ρ base r o => ?_,
    fun ρ base r o => ?_, by decide, by decide, by decide⟩
  · unfold PackagesAPI.deleteStack
    rw [qs_delete_orgID]
  · unfold PackagesAPI.exportStack
    rw [qs_export_orgID]
